import Mathlib

/-!
# Verification of the YiMengQing chat-bot plugin core

Shallow embedding of the plugin's state-bearing behaviour:

* the check-in streak tracker (`原/handlers/checkin.py`, `CheckinHandler.handle_checkin`);
* the weighted divination draw (`原/handlers/divination.py`, `DivinationHandler._generate_luck`);
* the JSON persistence loaders (`原/config.py`, `ConfigManager._load_json`, and
  `CheckinHandler._load_checkin_data`);
* blacklist membership (`原/config.py`, `ConfigManager.add_to_blacklist` etc.);
* the admin-only developer command surface (`原/handlers/developer.py`).

Dates are modelled as day numbers (`Nat`); the Python code compares `%Y-%m-%d`
strings for equality only, and "yesterday" is "today minus one day", so the
encoding is faithful.  The empty string `""` used by the code for a
never-checked-in `last_date` is modelled as `none`.
-/

namespace YiMengQing

/-! ## Time-of-day bucketing -/

/-- A caller-supplied timestamp: a calendar day number plus a time of day.
In the Python code `datetime.now()` supplies all of these at once. -/
structure Timestamp where
  day : Nat
  hour : Nat
  minute : Nat
  second : Nat
deriving DecidableEq, Repr

/-- Modelled from the spec: the function `get_time_period` lives in
`原/utils/time_utils.py`, which is imported by every handler but absent from
the repository snapshot.  The spec fixes the three buckets: `morning`
[05:00,12:00), `afternoon` [12:00,20:00), `night` [20:00,05:00) (wrapping
midnight). -/
def get_time_period (t : Timestamp) : String :=
  if 5 ≤ t.hour ∧ t.hour < 12 then "morning"
  else if 12 ≤ t.hour ∧ t.hour < 20 then "afternoon"
  else "night"

/-! ## Check-in records and store (`checkin.py`) -/

/-- One entry of a record's `history` list. -/
structure HistoryEntry where
  date : Nat
  hour : Nat
  minute : Nat
  second : Nat
  period : String
deriving DecidableEq, Repr

/-- One per-`(user, group)` check-in record, as stored in `checkin_data.json`.
`last_date = none` models the Python empty string `""`. -/
structure CheckinRecord where
  user_id : Nat
  group_id : Nat
  first_date : Nat
  last_date : Option Nat
  total_days : Nat
  continuous_days : Nat
  history : List HistoryEntry
deriving DecidableEq, Repr

/-- The whole `checkin_data.json` document: an association list from the
`"{user_id}_{group_id}"` key to the record. -/
abbrev Store : Type := List ((Nat × Nat) × CheckinRecord)

/-- Dictionary read, `data.get(key)`. -/
def storeGet : Store → (Nat × Nat) → Option CheckinRecord
  | [], _ => none
  | (k', v) :: rest, k => if k = k' then some v else storeGet rest k

/-- Dictionary write, `data[key] = value`. -/
def storeSet : Store → (Nat × Nat) → CheckinRecord → Store
  | [], k, v => [(k, v)]
  | (k', v') :: rest, k, v =>
      if k = k' then (k, v) :: rest else (k', v') :: storeSet rest k v

/-- The default record built inline in `handle_checkin` for a subject with no
prior entry. -/
def defaultRecord (user_id group_id today : Nat) : CheckinRecord :=
  { user_id := user_id
    group_id := group_id
    first_date := today
    last_date := none
    total_days := 0
    continuous_days := 0
    history := [] }

/-- The record update performed by `handle_checkin` on a successful check-in:
the Python `continuous_days = 1; if last == yesterday: prev + 1; elif last: 1`
collapses to the single conditional below, `total_days` increments, `last_date`
becomes today, and one history entry is appended. -/
def updateRecord (rec : CheckinRecord) (t : Timestamp) : CheckinRecord :=
  { rec with
    last_date := some t.day
    total_days := rec.total_days + 1
    continuous_days :=
      if rec.last_date = some (t.day - 1) then rec.continuous_days + 1 else 1
    history := rec.history ++
      [{ date := t.day, hour := t.hour, minute := t.minute, second := t.second
         period := get_time_period t }] }

/-- Outcomes of `handle_checkin`: the two rejection messages, or success with
the freshly written record. -/
inductive CheckinResult where
  | blackout
  | alreadyCheckedIn
  | success (record : CheckinRecord)
deriving DecidableEq, Repr

/-- `CheckinHandler.handle_checkin`: reject during the night bucket, reject a
second check-in on the same date, otherwise update and persist the record. -/
def handle_checkin (data : Store) (user_id group_id : Nat) (t : Timestamp) :
    CheckinResult × Store :=
  if get_time_period t = "night" then
    (CheckinResult.blackout, data)
  else
    let rec0 := (storeGet data (user_id, group_id)).getD
      (defaultRecord user_id group_id t.day)
    if rec0.last_date = some t.day then
      (CheckinResult.alreadyCheckedIn, data)
    else
      let newRec := updateRecord rec0 t
      (CheckinResult.success newRec, storeSet data (user_id, group_id) newRec)

/-- Stores reachable from the empty initial `checkin_data.json` document by
any sequence of check-in operations. -/
inductive Reachable : Store → Prop
  | empty : Reachable []
  | step (user_id group_id : Nat) (t : Timestamp) {s : Store} :
      Reachable s → Reachable (handle_checkin s user_id group_id t).2

/-! ## Weighted divination draw (`divination.py`) -/

/-- The base five-tier probability table literal from `_generate_luck`
(`weights = {...}`), as ordered (String, weight) pairs; Python dict iteration
order is insertion order. -/
def baseWeights : List (String × ℚ) :=
  [("大吉", 15/100), ("中吉", 25/100), ("小吉", 35/100),
   ("凶", 20/100), ("大凶", 5/100)]

/-- The per-constellation adjustment literal from `_generate_luck`
(`adjustments = {...}`); a constellation outside the three registered keys has
no adjustment. -/
def adjustments (constellation : String) : List (String × ℚ) :=
  if constellation = "白羊座" then [("大吉", 5/100), ("凶", -3/100)]
  else if constellation = "摩羯座" then [("中吉", 10/100), ("大凶", -5/100)]
  else if constellation = "双鱼座" then [("小吉", 7/100), ("凶", 3/100)]
  else []

/-- The adjustment loop `for k, v in adjustments[constellation].items():
final_weights[k] += v`: every tier keeps its base weight plus its listed delta
(zero when the tier is not listed). -/
def apply_adjust (base : List (String × ℚ)) (adj : List (String × ℚ)) :
    List (String × ℚ) :=
  base.map (fun p => (p.1, p.2 + ((adj.lookup p.1).getD 0)))

/-- The renormalization loop: `total = sum(final_weights.values());
for k in final_weights: final_weights[k] /= total`. -/
def renormalize (ws : List (String × ℚ)) : List (String × ℚ) :=
  let total := (ws.map Prod.snd).sum
  ws.map (fun p => (p.1, p.2 / total))

/-- `final_weights` as computed by `_generate_luck` for a constellation,
before renormalization. -/
def final_weights (constellation : String) : List (String × ℚ) :=
  apply_adjust baseWeights (adjustments constellation)

/-- The normalized tier distribution that `random.choices` actually samples
from in `_generate_luck`. -/
def normalized_weights (constellation : String) : List (String × ℚ) :=
  renormalize (final_weights constellation)

/-- The `lucky_data` table from `_load_lucky_data`: three detail strings per
tier. -/
def lucky_data (level : String) : List String :=
  if level = "大吉" then
    ["今天鸿运当头，宜大胆行动", "贵人相助，事业学业双丰收",
     "感情运势极佳，单身者有望邂逅良缘"]
  else if level = "中吉" then
    ["整体运势不错，可尝试新事物", "财运平稳，适合小额投资",
     "人际关系和谐，易得他人帮助"]
  else if level = "小吉" then
    ["运势平稳，按部就班即可", "注意细节处理，避免小失误",
     "健康运良好，适合锻炼身体"]
  else if level = "凶" then
    ["今日易遇波折，重要决策需谨慎", "注意口舌是非，谨言慎行为上",
     "财运不佳，避免大额消费"]
  else if level = "大凶" then
    ["诸事不宜，建议低调行事", "健康预警，注意休息调养",
     "易遇小人，重要文件需备份"]
  else []

/-- CPython `random.choices(population, weights, k=1)`: bisect the cumulative
weights at `random() * total`, with the upper search bound `len - 1` clamping
an overshoot to the last element. -/
def choose_weighted : List (String × ℚ) → ℚ → String
  | [], _ => ""
  | [(k, _)], _ => k
  | (k, w) :: p :: rest, x =>
      if x < w then k else choose_weighted (p :: rest) (x - w)

/-- `_generate_luck` with the consumed module-global randomness made explicit:
`x` is the value of `random.random()` inside `random.choices`, and `n` is the
index `random._randbelow(len(seq))` drawn inside `random.choice`.  The Python
method itself takes only `constellation`; it has no random-source
parameter. -/
def generate_luck (constellation : String) (x : ℚ) (n : Nat) : String × String :=
  let probs := normalized_weights constellation
  let lucky_level := choose_weighted probs (x * (probs.map Prod.snd).sum)
  (lucky_level, (lucky_data lucky_level).getD n "")

/-! ## JSON persistence loaders (`config.py`, `checkin.py`) -/

/-- A JSON value, as far as the loaders distinguish them. -/
inductive Json where
  | obj (fields : List (String × Json))
  | arr (items : List Json)
  | str (s : String)
  | num (n : Int)
  | bool (b : Bool)
  | null

/-- The state of one backing file as the loader finds it. -/
inductive FileState where
  | missing
  | corrupt
  | valid (content : Json)

/-- `ConfigManager._load_json`: `try: json.load(f) except (FileNotFoundError,
json.JSONDecodeError): return {}` — the fallback is the dict `{}` for every
collection, whatever its declared default. -/
def load_json (f : FileState) : Json :=
  match f with
  | FileState.valid c => c
  | FileState.missing => Json.obj []
  | FileState.corrupt => Json.obj []

/-- `CheckinHandler._load_checkin_data`: a bare `open` + `json.load` with no
`try`/`except`; a missing file raises `FileNotFoundError` and a corrupt file
raises `json.JSONDecodeError`. -/
def load_checkin_data (f : FileState) : Except String Json :=
  match f with
  | FileState.valid c => Except.ok c
  | FileState.missing => Except.error "FileNotFoundError"
  | FileState.corrupt => Except.error "JSONDecodeError"

/-! ## Blacklist membership (`config.py`) -/

/-- The `blacklist.json` document `{"users": [...], "words": [...]}`. -/
structure Blacklist where
  users : List Nat
  words : List String
deriving DecidableEq, Repr

/-- `ConfigManager.add_to_blacklist`: append only when absent, then save. -/
def add_to_blacklist (bl : Blacklist) (user_id : Nat) : Blacklist :=
  if user_id ∈ bl.users then bl
  else { bl with users := bl.users ++ [user_id] }

/-- `ConfigManager.remove_from_blacklist`: Python `list.remove` deletes the
first occurrence, guarded by membership. -/
def remove_from_blacklist (bl : Blacklist) (user_id : Nat) : Blacklist :=
  if user_id ∈ bl.users then { bl with users := bl.users.erase user_id }
  else bl

/-- `ConfigManager.is_blacklisted`. -/
def is_blacklisted (bl : Blacklist) (user_id : Nat) : Bool :=
  user_id ∈ bl.users

/-- Blacklist states reachable from the initial `{"users": [], "words": []}`
document by the manager's add/remove operations. -/
inductive BlacklistReachable : Blacklist → Prop
  | init : BlacklistReachable { users := [], words := [] }
  | add (user_id : Nat) {bl : Blacklist} :
      BlacklistReachable bl → BlacklistReachable (add_to_blacklist bl user_id)
  | remove (user_id : Nat) {bl : Blacklist} :
      BlacklistReachable bl → BlacklistReachable (remove_from_blacklist bl user_id)

/-! ## Admin-only developer commands (`developer.py`, `config.py`) -/

/-- The slice of `PluginConfig` the developer handlers read and mutate. -/
structure PluginConfig where
  master_qq : Nat
  agents : List Nat
  group_approve_mode : Bool
deriving DecidableEq, Repr

/-- `ConfigManager.is_master`. -/
def is_master (cfg : PluginConfig) (user_id : Nat) : Bool :=
  user_id = cfg.master_qq

/-- `ConfigManager.is_agent`. -/
def is_agent (cfg : PluginConfig) (user_id : Nat) : Bool :=
  user_id ∈ cfg.agents

/-- `ConfigManager.is_admin`: the owner or a delegate. -/
def is_admin (cfg : PluginConfig) (user_id : Nat) : Bool :=
  is_master cfg user_id || is_agent cfg user_id

/-- The developer menu text sent by `handle_developer`. -/
def developer_menu_msg : String :=
  String.intercalate "\n"
    ["小生……做噩梦了",
     "1.代理人设置☞参谋[QQ号]",
     "2.删除代理人☞变卦[QQ号]",
     "3.接管入群申请☞观星",
     "4.停止接管☞合眼",
     "5.设置审核条件☞挪盘",
     "6.禁言☞襟声[QQ号] [时长分钟]",
     "7.私信☞窃语[群号]#[QQ号]#[内容]",
     "8.黑名单☞山海经[QQ号]",
     "9.白名单☞封神榜[QQ号]",
     "10.开启权限审核☞修炼",
     "11.关闭权限审核☞修行",
     "12.屏蔽词☞定声[词汇]",
     "13.解除屏蔽☞诵经[词汇]",
     "14.关闭机器人☞闭关"]

/-- `DeveloperHandler.handle_developer`: a non-admin caller gets no reply at
all; an admin gets the menu by private message.  The result is the list of
messages sent. -/
def handle_developer (cfg : PluginConfig) (user_id : Nat) : List String :=
  if ¬ is_admin cfg user_id then []
  else [developer_menu_msg]

/-- The kind of inbound event, standing for the Python `isinstance` test
against `GroupMessageEvent` / `PrivateMessageEvent`. -/
inductive EventKind where
  | group
  | privateMsg
  | other
deriving DecidableEq, Repr

/-- A message event as far as `check_developer_commands` inspects it. -/
structure MessageEvent where
  kind : EventKind
  user_id : Nat
  message : String
deriving DecidableEq, Repr

/-- Python `str.isdigit` on the QQ-number argument (ASCII digits). -/
def isdigit (s : String) : Bool :=
  !s.isEmpty && s.all Char.isDigit

/-- `DeveloperHandler._handle_agent_add`: returns whether the command was
consumed, plus the updated config and the messages sent. -/
def handle_agent_add (cfg : PluginConfig) (qq_str : String) :
    Bool × PluginConfig × List String :=
  if ¬ isdigit qq_str then (false, cfg, [])
  else
    let qq := qq_str.toNat?.getD 0
    if 2 ≤ cfg.agents.length then
      (true, cfg, ["代理人已满两位，无法再添加"])
    else
      (true, { cfg with agents := cfg.agents ++ [qq] }, ["啊……副店长么?小生记住了。"])

/-- `DeveloperHandler._handle_agent_remove`. -/
def handle_agent_remove (cfg : PluginConfig) (qq_str : String) :
    Bool × PluginConfig × List String :=
  if ¬ isdigit qq_str then (false, cfg, [])
  else
    let qq := qq_str.toNat?.getD 0
    if qq ∈ cfg.agents then
      (true, { cfg with agents := cfg.agents.erase qq }, ["副店长走了?来日方长，定可再见的。"])
    else
      (true, cfg, ["这位并非代理人呢"])

/-- `DeveloperHandler.check_developer_commands`: a non-message event or a
non-admin sender falls through with `False` and no reply; an admin's message
is matched against the command vocabulary.  The result is (consumed flag,
updated config, messages sent). -/
def check_developer_commands (cfg : PluginConfig) (event : MessageEvent) :
    Bool × PluginConfig × List String :=
  if event.kind = EventKind.other then (false, cfg, [])
  else if ¬ is_admin cfg event.user_id then (false, cfg, [])
  else
    let msg := event.message.trim
    if msg.startsWith "参谋" then handle_agent_add cfg ((msg.drop 2).trim)
    else if msg.startsWith "变卦" then handle_agent_remove cfg ((msg.drop 2).trim)
    else if msg = "观星" then
      (true, { cfg with group_approve_mode := true }, ["知道了，小生眼观六路，耳听八方。"])
    else if msg = "合眼" then
      (true, { cfg with group_approve_mode := false }, ["已停止审核入群申请"])
    else (false, cfg, [])

/-! ## Store lemmas -/

lemma storeGet_set_self (s : Store) (k : Nat × Nat) (v : CheckinRecord) :
    storeGet (storeSet s k v) k = some v := by
  induction s with
  | nil => simp [storeSet, storeGet]
  | cons p rest ih =>
      obtain ⟨k', v'⟩ := p
      by_cases h : k = k' <;> simp [storeSet, storeGet, h, ih]

lemma storeGet_set_other (s : Store) (k k2 : Nat × Nat) (v : CheckinRecord)
    (h : k2 ≠ k) : storeGet (storeSet s k v) k2 = storeGet s k2 := by
  induction s with
  | nil => simp [storeSet, storeGet, h]
  | cons p rest ih =>
      obtain ⟨k', v'⟩ := p
      by_cases hk : k = k'
      · subst hk; simp [storeSet, storeGet, h]
      · by_cases hk2 : k2 = k' <;> simp [storeSet, storeGet, hk, hk2, ih]

/-- The store returned by `handle_checkin` is either untouched (a rejection)
or the old store with the updated record written at the caller's key. -/
lemma handle_checkin_store_cases (data : Store) (u g : Nat) (t : Timestamp) :
    (handle_checkin data u g t).2 = data ∨
    (handle_checkin data u g t).2 =
      storeSet data (u, g)
        (updateRecord ((storeGet data (u, g)).getD (defaultRecord u g t.day)) t) := by
  unfold handle_checkin
  split
  · exact Or.inl rfl
  · dsimp only
    split
    · exact Or.inl rfl
    · exact Or.inr rfl

/-- Characterization of a successful check-in. -/
lemma handle_checkin_success_eq {data : Store} {u g : Nat} {t : Timestamp}
    {r : CheckinRecord} {s' : Store}
    (h : handle_checkin data u g t = (CheckinResult.success r, s')) :
    get_time_period t ≠ "night" ∧
    ((storeGet data (u, g)).getD (defaultRecord u g t.day)).last_date ≠ some t.day ∧
    r = updateRecord ((storeGet data (u, g)).getD (defaultRecord u g t.day)) t ∧
    s' = storeSet data (u, g) r := by
  unfold handle_checkin at h
  split at h
  · exact absurd (congrArg Prod.fst h) (by simp)
  · dsimp only at h
    split at h
    · exact absurd (congrArg Prod.fst h) (by simp)
    · rename_i hnight hlast
      obtain ⟨h1, h2⟩ := Prod.mk.injEq .. ▸ h
      have hr : updateRecord ((storeGet data (u, g)).getD (defaultRecord u g t.day)) t = r := by
        injection h1
      exact ⟨hnight, hlast, hr.symm, by rw [← h2, hr]⟩

/-! ## Claims about the check-in streak tracker -/

/-- A stored record whose `last_date` is already "today" (day 100), used as a
concrete prior state. -/
def demoRecord : CheckinRecord :=
  { user_id := 1, group_id := 2, first_date := 90, last_date := some 100
    total_days := 5, continuous_days := 3, history := [] }

/-- A one-record store holding `demoRecord`. -/
def demoStore : Store := [((1, 2), demoRecord)]

/-- C3: a call whose time-of-day bucket is "night" is rejected with the
blackout message and mutates nothing, regardless of the subject's prior
state; in particular the blackout check fires before the already-checked-in
check. -/
theorem checkin_blackout_no_mutation (data : Store) (u g : Nat) (t : Timestamp)
    (h : get_time_period t = "night") :
    handle_checkin data u g t = (CheckinResult.blackout, data) := by
  simp [handle_checkin, h]

/-- Witness for C3: at 23:00 on day 100, with a record whose `last_date` is
already day 100, the result is still `blackout` and the store is returned
unchanged. -/
theorem checkin_blackout_no_mutation_witness :
    get_time_period ⟨100, 23, 0, 0⟩ = "night" ∧
    demoRecord.last_date = some 100 ∧
    handle_checkin demoStore 1 2 ⟨100, 23, 0, 0⟩ = (CheckinResult.blackout, demoStore) :=
  ⟨rfl, rfl, checkin_blackout_no_mutation demoStore 1 2 ⟨100, 23, 0, 0⟩ rfl⟩

/-- C2 counterexample: with a record whose `last_date` equals today's date,
a call made during the night bucket returns `blackout`, not
`alreadyCheckedIn` — the claim's unconditional "returns AlreadyCheckedIn
whenever lastDate = today" is false at this input. -/
theorem checkin_already_checked_in_cex :
    storeGet demoStore (1, 2) = some demoRecord ∧
    demoRecord.last_date = some 100 ∧
    (handle_checkin demoStore 1 2 ⟨100, 23, 0, 0⟩).1 = CheckinResult.blackout ∧
    (handle_checkin demoStore 1 2 ⟨100, 23, 0, 0⟩).1 ≠ CheckinResult.alreadyCheckedIn := by
  refine ⟨rfl, rfl, rfl, by decide⟩

/-- C2 (amended): outside the blackout window, a subject whose `last_date`
equals today's date is rejected with `alreadyCheckedIn` and the store is
returned unchanged; consequently a second check-in on the calendar date of a
successful one (made outside the blackout window) is rejected with the store
exactly as the first call left it. -/
theorem checkin_idempotent_same_day (data : Store) (u g : Nat) (t' : Timestamp)
    (hnight : get_time_period t' ≠ "night") :
    (∀ rec, storeGet data (u, g) = some rec → rec.last_date = some t'.day →
        handle_checkin data u g t' = (CheckinResult.alreadyCheckedIn, data)) ∧
    (∀ t r s', handle_checkin data u g t = (CheckinResult.success r, s') →
        t'.day = t.day →
        handle_checkin s' u g t' = (CheckinResult.alreadyCheckedIn, s')) := by
  constructor
  · intro rec hget hlast
    simp [handle_checkin, hnight, hget, hlast]
  · intro t r s' hsucc hday
    obtain ⟨-, -, hr, hs'⟩ := handle_checkin_success_eq hsucc
    have hget' : storeGet s' (u, g) = some r := by
      rw [hs']; exact storeGet_set_self data (u, g) r
    have hlast' : r.last_date = some t'.day := by
      rw [hr, hday]; rfl
    simp [handle_checkin, hnight, hget', hlast']

/-- Witness for C2 (amended): concretely, after a successful check-in on the
morning of day 100 starting from the empty store, a second call the same
afternoon is rejected and the store is unchanged. -/
theorem checkin_idempotent_same_day_witness :
    get_time_period ⟨100, 15, 0, 0⟩ ≠ "night" ∧
    handle_checkin (handle_checkin [] 1 2 ⟨100, 9, 0, 0⟩).2 1 2 ⟨100, 15, 0, 0⟩ =
      (CheckinResult.alreadyCheckedIn, (handle_checkin [] 1 2 ⟨100, 9, 0, 0⟩).2) := by
  refine ⟨by decide, ?_⟩
  exact (checkin_idempotent_same_day (([]) : Store) 1 2 ⟨100, 15, 0, 0⟩ (by decide)).2
    ⟨100, 9, 0, 0⟩ _ _ rfl rfl

/-- A prior record whose `last_date` is day 99 ("yesterday" for day 100). -/
def demoRecordY : CheckinRecord :=
  { user_id := 1, group_id := 2, first_date := 90, last_date := some 99
    total_days := 5, continuous_days := 3, history := [] }

/-- A one-record store holding `demoRecordY`. -/
def demoStoreY : Store := [((1, 2), demoRecordY)]

/-- C1: on every successful check-in, `last_date` becomes today's day number,
`total_days` is the prior value (0 without a prior record) plus one, and
`continuous_days` is the prior value plus one exactly when the prior record's
`last_date` is yesterday, and 1 in every other case (no prior record, or a
gap of two or more days). -/
theorem checkin_streak_update (data : Store) (u g : Nat) (t : Timestamp)
    (r : CheckinRecord) (s' : Store)
    (hsucc : handle_checkin data u g t = (CheckinResult.success r, s')) :
    r.last_date = some t.day ∧
    r.total_days = ((storeGet data (u, g)).map CheckinRecord.total_days).getD 0 + 1 ∧
    (∀ p, storeGet data (u, g) = some p →
        r.continuous_days =
          if p.last_date = some (t.day - 1) then p.continuous_days + 1 else 1) ∧
    (storeGet data (u, g) = none → r.continuous_days = 1) := by
  obtain ⟨-, -, hr, -⟩ := handle_checkin_success_eq hsucc
  subst hr
  cases hget : storeGet data (u, g) with
  | none =>
      refine ⟨rfl, ?_, ?_, ?_⟩
      · simp [updateRecord, defaultRecord]
      · intro p hp; exact absurd hp (by simp)
      · intro _; simp [updateRecord, defaultRecord]
  | some p =>
      refine ⟨rfl, ?_, ?_, ?_⟩
      · simp [updateRecord]
      · intro q hq
        obtain rfl : p = q := by injection hq
        simp [updateRecord]
      · intro hc; exact absurd hc (by simp)

/-- Witness for C1: with a prior record of 3 continuous and 5 total days
whose `last_date` is day 99, a successful check-in on day 100 yields 4
continuous days, 6 total days, and `last_date` 100. -/
theorem checkin_streak_update_witness :
    (updateRecord demoRecordY ⟨100, 9, 0, 0⟩).last_date = some 100 ∧
    (updateRecord demoRecordY ⟨100, 9, 0, 0⟩).total_days = 6 ∧
    (updateRecord demoRecordY ⟨100, 9, 0, 0⟩).continuous_days = 4 := by
  have h := checkin_streak_update demoStoreY 1 2 ⟨100, 9, 0, 0⟩
    (updateRecord demoRecordY ⟨100, 9, 0, 0⟩)
    (storeSet demoStoreY (1, 2) (updateRecord demoRecordY ⟨100, 9, 0, 0⟩)) (by decide)
  refine ⟨h.1, ?_, ?_⟩
  · have := h.2.1
    simpa using this
  · have := h.2.2.1 demoRecordY (by decide)
    simpa using this

/-- One successful update preserves the record invariants. -/
lemma updateRecord_inv {rec : CheckinRecord} (t : Timestamp)
    (h1 : rec.continuous_days ≤ rec.total_days)
    (h2 : rec.history.length = rec.total_days) :
    (updateRecord rec t).continuous_days ≤ (updateRecord rec t).total_days ∧
    (updateRecord rec t).history.length = (updateRecord rec t).total_days := by
  unfold updateRecord
  constructor
  · dsimp only
    split <;> omega
  · simp [h2]

/-- The per-record invariants hold in every reachable store. -/
lemma reachable_record_inv {s : Store} (h : Reachable s) :
    ∀ k rec, storeGet s k = some rec →
      rec.continuous_days ≤ rec.total_days ∧
      rec.history.length = rec.total_days := by
  induction h with
  | empty => intro k rec hget; exact absurd hget (by simp [storeGet])
  | step u g t hs ih =>
      intro k rec hget
      rcases handle_checkin_store_cases _ u g t with hc | hc
      · rw [hc] at hget; exact ih k rec hget
      · rw [hc] at hget
        by_cases hk : k = (u, g)
        · subst hk
          rw [storeGet_set_self] at hget
          obtain rfl :
              updateRecord ((storeGet _ (u, g)).getD (defaultRecord u g t.day)) t = rec := by
            injection hget
          cases hrec0 : storeGet _ (u, g) with
          | none =>
              exact updateRecord_inv t (by simp [defaultRecord]) (by simp [defaultRecord])
          | some p =>
              obtain ⟨hp1, hp2⟩ := ih (u, g) p hrec0
              exact updateRecord_inv t hp1 hp2
        · rw [storeGet_set_other _ _ _ _ hk] at hget
          exact ih k rec hget

/-- One check-in step never rewrites or removes existing history: the record
at every key survives and its old history is a prefix of the new one. -/
lemma checkin_history_prefix (s : Store) (u g : Nat) (t : Timestamp)
    (k : Nat × Nat) (rec : CheckinRecord) (hget : storeGet s k = some rec) :
    ∃ rec', storeGet (handle_checkin s u g t).2 k = some rec' ∧
      rec.history <+: rec'.history := by
  rcases handle_checkin_store_cases s u g t with hc | hc
  · exact ⟨rec, by rw [hc]; exact hget, List.prefix_refl _⟩
  · by_cases hk : k = (u, g)
    · subst hk
      refine ⟨_, by rw [hc]; exact storeGet_set_self .., ?_⟩
      rw [hget]
      simp [updateRecord]
    · exact ⟨rec, by rw [hc]; rw [storeGet_set_other _ _ _ _ hk]; exact hget,
        List.prefix_refl _⟩

/-- C7: in every store reachable from the empty document by check-in
operations, every record satisfies `continuous_days ≤ total_days` and
`history.length = total_days`; moreover a further check-in operation only
appends to any record's history (existing entries are never modified or
removed). -/
theorem checkin_reachable_invariants {s : Store} (h : Reachable s) :
    (∀ k rec, storeGet s k = some rec →
        rec.continuous_days ≤ rec.total_days ∧
        rec.history.length = rec.total_days) ∧
    (∀ u g t k rec, storeGet s k = some rec →
        ∃ rec', storeGet (handle_checkin s u g t).2 k = some rec' ∧
          rec.history <+: rec'.history) :=
  ⟨reachable_record_inv h, fun u g t k rec hget =>
    checkin_history_prefix s u g t k rec hget⟩

/-- The record produced by a first-ever check-in on the morning of day 100. -/
def firstDayRecord : CheckinRecord :=
  updateRecord (defaultRecord 1 2 100) ⟨100, 9, 0, 0⟩

/-- Witness for C7: the store after one successful check-in (day 100, 09:00)
is reachable from the empty store and its single record satisfies the
invariants. -/
theorem checkin_reachable_invariants_witness :
    firstDayRecord.continuous_days ≤ firstDayRecord.total_days ∧
    firstDayRecord.history.length = firstDayRecord.total_days :=
  (checkin_reachable_invariants
      (Reachable.step 1 2 ⟨100, 9, 0, 0⟩ Reachable.empty)).1
    (1, 2) firstDayRecord (by decide)

/-! ## Claims about the weighted divination draw -/

/-- The adjustment loop acts pointwise on lookups: a tier's adjusted weight is
its base weight plus its listed delta (zero when unlisted). -/
lemma lookup_apply_adjust (base adj : List (String × ℚ)) (k : String) :
    (apply_adjust base adj).lookup k =
      (base.lookup k).map (fun w => w + ((adj.lookup k).getD 0)) := by
  induction base with
  | nil => simp [apply_adjust]
  | cons p rest ih =>
      obtain ⟨k', w⟩ := p
      by_cases h : k = k'
      · subst h; simp [apply_adjust, List.lookup]
      · have hb : (k == k') = false := beq_false_of_ne h
        simpa [apply_adjust, List.lookup, hb] using ih

/-- C4: the distribution `random.choices` samples from in `_generate_luck`
is the base table with the registered deltas added to exactly the listed
tiers, divided by the adjusted total; whenever every adjusted weight is
non-negative the five normalized probabilities sum to exactly 1 (so in
particular within any tolerance). -/
theorem weighted_draw_normalization (c : String)
    (h : ∀ p ∈ final_weights c, (0 : ℚ) ≤ p.2) :
    ((normalized_weights c).map Prod.snd).sum = 1 ∧
    (adjustments c = [] → final_weights c = baseWeights) ∧
    (∀ k, (adjustments c).lookup k = none →
        (final_weights c).lookup k = baseWeights.lookup k) := by
  refine ⟨?_, ?_, ?_⟩
  · by_cases h1 : c = "白羊座"
    · subst h1
      simp +decide [normalized_weights, renormalize, final_weights, apply_adjust,
        baseWeights, adjustments, List.lookup] <;> norm_num
    · by_cases h2 : c = "摩羯座"
      · subst h2
        simp +decide [normalized_weights, renormalize, final_weights, apply_adjust,
          baseWeights, adjustments, List.lookup] <;> norm_num
      · by_cases h3 : c = "双鱼座"
        · subst h3
          simp +decide [normalized_weights, renormalize, final_weights, apply_adjust,
            baseWeights, adjustments, List.lookup] <;> norm_num
        · have hadj : adjustments c = [] := by simp [adjustments, h1, h2, h3]
          show ((renormalize (apply_adjust baseWeights (adjustments c))).map
              Prod.snd).sum = 1
          rw [hadj]
          simp +decide [renormalize, apply_adjust, baseWeights, List.lookup] <;> norm_num
  · intro hadj
    simp [final_weights, hadj, apply_adjust, List.lookup]
  · intro k hk
    rw [final_weights, lookup_apply_adjust, hk]
    simp

/-- Witness for C4: for 白羊座 every adjusted weight is non-negative and the
normalized probabilities sum to 1. -/
theorem weighted_draw_normalization_witness :
    ((normalized_weights "白羊座").map Prod.snd).sum = 1 :=
  (weighted_draw_normalization "白羊座"
    (by simp +decide [final_weights, apply_adjust, baseWeights, adjustments,
          List.lookup] <;> norm_num)).1

/-- A hypothetical adjustment that pushes the 大吉 tier weight negative. -/
def negAdjust : List (String × ℚ) := [("大吉", -(1 : ℚ)/5)]

/-- C5 counterexample: nothing in the program rejects a negativity-producing
adjustment — the draw pipeline accepts it and renormalizes at runtime,
emitting a negative "probability" (−1/16 for 大吉) instead of failing at
load time. -/
theorem negative_weight_renormalized_cex :
    (apply_adjust baseWeights negAdjust).lookup "大吉" = some (-(1 : ℚ)/20) ∧
    (renormalize (apply_adjust baseWeights negAdjust)).lookup "大吉" =
      some (-(1 : ℚ)/16) := by
  constructor <;>
    · simp +decide [renormalize, apply_adjust, baseWeights, negAdjust, List.lookup] <;>
        norm_num

/-- C5 (amended): the code performs no load-time validation and
unconditionally renormalizes at runtime; however, for every constellation the
registered adjustments leave all five adjusted weights non-negative (the
摩羯座 大凶 weight is exactly 0) with a positive total, so renormalization
never divides by zero nor produces a negative probability in the shipped
configuration. -/
theorem registered_adjustments_nonneg (c : String) :
    (∀ p ∈ final_weights c, (0 : ℚ) ≤ p.2) ∧
    0 < ((final_weights c).map Prod.snd).sum ∧
    normalized_weights c = renormalize (final_weights c) := by
  refine ⟨?_, ?_, rfl⟩ <;>
  · by_cases h1 : c = "白羊座"
    · subst h1
      simp +decide [final_weights, apply_adjust, baseWeights, adjustments,
        List.lookup] <;> norm_num
    · by_cases h2 : c = "摩羯座"
      · subst h2
        simp +decide [final_weights, apply_adjust, baseWeights, adjustments,
          List.lookup] <;> norm_num
      · by_cases h3 : c = "双鱼座"
        · subst h3
          simp +decide [final_weights, apply_adjust, baseWeights, adjustments,
            List.lookup] <;> norm_num
        · have hadj : adjustments c = [] := by simp [adjustments, h1, h2, h3]
          simp only [final_weights, hadj]
          simp +decide [apply_adjust, baseWeights, List.lookup] <;> norm_num

/-! ## Claims about the persistence loaders -/

/-- C6 counterexample: the check-in handler's own loader
(`_load_checkin_data`) has no recovery path — on a missing backing file it
raises `FileNotFoundError`, and on a corrupt one `JSONDecodeError`, instead
of returning the collection's empty default. -/
theorem checkin_loader_raises_cex :
    load_checkin_data FileState.missing = Except.error "FileNotFoundError" ∧
    load_checkin_data FileState.corrupt = Except.error "JSONDecodeError" :=
  ⟨rfl, rfl⟩

/-- C6 (amended): `ConfigManager._load_json` returns the dict `{}` on a
missing or corrupt file (for every collection, including list-typed ones
whose declared default is `[]`) and the parsed content otherwise; but
`CheckinHandler._load_checkin_data` performs a bare read that raises on a
missing or corrupt file, relying on the file having been created at
startup. -/
theorem load_json_best_effort :
    load_json FileState.missing = Json.obj [] ∧
    load_json FileState.corrupt = Json.obj [] ∧
    (∀ j, load_json (FileState.valid j) = j) ∧
    load_checkin_data FileState.missing = Except.error "FileNotFoundError" ∧
    load_checkin_data FileState.corrupt = Except.error "JSONDecodeError" :=
  ⟨rfl, rfl, fun _ => rfl, rfl, rfl⟩

/-! ## Claims about draw determinism -/

/-- C8: the embedded draw, with the values consumed from the module-global
`random` generator made explicit, is a pure function — evaluated at the
concrete consumed values 0.12 and 0.5 (detail indices 0 and 1) it returns
exactly these (tier, detail) pairs.  The Python `_generate_luck` itself
offers no parameter through which a caller could inject such a source. -/
theorem generate_luck_deterministic_eval :
    generate_luck "白羊座" (12/100) 0 = ("大吉", "今天鸿运当头，宜大胆行动") ∧
    generate_luck "白羊座" (50/100) 1 = ("小吉", "注意细节处理，避免小失误") := by
  refine ⟨?_, ?_⟩
  · simp +decide [generate_luck, normalized_weights, renormalize, final_weights,
      apply_adjust, baseWeights, adjustments, List.lookup]
    norm_num [choose_weighted, lucky_data]
  · simp +decide [generate_luck, normalized_weights, renormalize, final_weights,
      apply_adjust, baseWeights, adjustments, List.lookup]
    norm_num [choose_weighted, lucky_data]
    decide

/-! ## Claims about admin gating -/

/-- C9: a message event whose sender is neither the owner nor a delegate
produces no output at all from the developer command surface:
`check_developer_commands` returns `False`, mutates nothing and sends
nothing — whatever the message text — and `handle_developer` sends
nothing. -/
theorem non_admin_gets_no_response (cfg : PluginConfig) (event : MessageEvent)
    (h : is_admin cfg event.user_id = false) :
    check_developer_commands cfg event = (false, cfg, []) ∧
    handle_developer cfg event.user_id = [] := by
  constructor
  · unfold check_developer_commands
    split
    · rfl
    · simp [h]
  · simp [handle_developer, h]

/-- Witness for C9: user 999 is no admin of a config owned by 123 with no
delegates; their message matching the add-delegate phrase gets no reply and
no config change, and the developer menu handler sends nothing. -/
theorem non_admin_gets_no_response_witness :
    is_admin ⟨123, [], false⟩ 999 = false ∧
    check_developer_commands ⟨123, [], false⟩ ⟨EventKind.group, 999, "参谋456"⟩ =
      (false, ⟨123, [], false⟩, []) ∧
    handle_developer ⟨123, [], false⟩ 999 = [] :=
  ⟨by decide,
   (non_admin_gets_no_response ⟨123, [], false⟩ ⟨EventKind.group, 999, "参谋456"⟩
     (by decide)).1,
   (non_admin_gets_no_response ⟨123, [], false⟩ ⟨EventKind.group, 999, "参谋456"⟩
     (by decide)).2⟩

/-! ## Claims about blacklist membership -/

/-- The `users` list of every reachable blacklist is duplicate-free. -/
lemma blacklist_reachable_nodup {bl : Blacklist} (h : BlacklistReachable bl) :
    bl.users.Nodup := by
  induction h with
  | init => simp
  | add u hbl ih =>
      rename_i bl
      unfold add_to_blacklist
      by_cases hm : u ∈ bl.users
      · simpa [hm] using ih
      · simp [hm, List.nodup_append, ih]
  | remove u hbl ih =>
      rename_i bl
      unfold remove_from_blacklist
      by_cases hm : u ∈ bl.users
      · simpa [hm] using ih.erase u
      · simpa [hm] using ih

/-- C10: on every blacklist state reachable from the initial empty document,
`add_to_blacklist` makes `is_blacklisted` true, `remove_from_blacklist` makes
it false, adding twice equals adding once, and the users list stays
duplicate-free under both operations. -/
theorem blacklist_membership_consistent (bl : Blacklist) (u : Nat)
    (h : BlacklistReachable bl) :
    bl.users.Nodup ∧
    is_blacklisted (add_to_blacklist bl u) u = true ∧
    is_blacklisted (remove_from_blacklist bl u) u = false ∧
    add_to_blacklist (add_to_blacklist bl u) u = add_to_blacklist bl u ∧
    (add_to_blacklist bl u).users.Nodup ∧
    (remove_from_blacklist bl u).users.Nodup := by
  have hnd := blacklist_reachable_nodup h
  refine ⟨hnd, ?_, ?_, ?_, ?_, ?_⟩
  · by_cases hm : u ∈ bl.users <;> simp [add_to_blacklist, is_blacklisted, hm]
  · by_cases hm : u ∈ bl.users <;>
      simp [remove_from_blacklist, is_blacklisted, hm, hnd.mem_erase_iff]
  · by_cases hm : u ∈ bl.users <;> simp [add_to_blacklist, hm]
  · exact blacklist_reachable_nodup (BlacklistReachable.add u h)
  · exact blacklist_reachable_nodup (BlacklistReachable.remove u h)

/-- Witness for C10: from the initial document, after adding user 7, the
membership checks evaluate as the claim says. -/
theorem blacklist_membership_consistent_witness :
    is_blacklisted (add_to_blacklist (add_to_blacklist ⟨[], []⟩ 7) 7) 7 = true ∧
    is_blacklisted (remove_from_blacklist (add_to_blacklist ⟨[], []⟩ 7) 7) 7 = false :=
  ⟨(blacklist_membership_consistent (add_to_blacklist ⟨[], []⟩ 7) 7
      (BlacklistReachable.add 7 BlacklistReachable.init)).2.1,
   (blacklist_membership_consistent (add_to_blacklist ⟨[], []⟩ 7) 7
      (BlacklistReachable.add 7 BlacklistReachable.init)).2.2.1⟩

end YiMengQing
